import Mathlib

/-!
# Shallow embedding of `src/minqlx-fork/commands.c`

This file embeds the command handlers of the minqlx `commands.c` unit:

* `atoi` — the C standard-library integer parser, as the source calls it on
  `Cmd_Argv` strings (leading whitespace, optional sign, leading digit run,
  result 0 when no digits are present);
* `Slap` / `Slay` — the entity-affecting console commands, over an explicit
  server state (`sv_maxclients->integer`, the `g_entities` table, the
  `svs->clients[..].name` table) and an explicit effect record (console
  prints, debug prints, server-command broadcasts, `G_AddEvent` emissions);
* `PyCommand` — the scripted-command dispatcher, as a trace of GIL/handler
  events parametric in the registered handler;
* `RestartPython` — the interpreter restart command, over a session state
  whose `PyMinqlx_Initialize` / `PyMinqlx_Finalize` operations are modelled
  from the spec (their bodies live outside this unit).

The engine stores velocities as C floats; no claim here depends on their
numeric values (only on whether they are mutated), so the random knockback
impulses `RandomFloatWithNegative() * 200.0f` are modelled as integer-valued
parameters `r0 * 200`, `r1 * 200` added to integer velocity components.
-/

namespace MinqlxCommands

/-- Accumulate the leading run of decimal digits, as `atoi` does. -/
def digitsVal : List Char → Int → Int
  | [], acc => acc
  | c :: cs, acc =>
      if c.isDigit then digitsVal cs (acc * 10 + ((c.toNat : Int) - 48))
      else acc

/-- C `atoi`: skip leading whitespace, read an optional sign and a leading
run of digits; a string with no leading digits parses to 0. -/
def atoi (s : String) : Int :=
  let cs := s.data.dropWhile fun c =>
    c == ' ' || c == '\t' || c == '\n' || c == '\x0b' || c == '\x0c' || c == '\r'
  match cs with
  | '-' :: rest => - digitsVal rest 0
  | '+' :: rest => digitsVal rest 0
  | _ => digitsVal cs 0

/-- One slot of the `g_entities` table, restricted to the fields
`commands.c` touches: `inuse`, `health`, the three `client->ps.velocity`
components, and `s.number`. -/
structure GEntity where
  inuse : Bool
  health : Int
  vel0 : Int
  vel1 : Int
  vel2 : Int
  number : Nat
  deriving Repr, DecidableEq

/-- The entity an out-of-table read would see; only reachable in branches the
theorems rule out (its `inuse = false` makes them no-ops). -/
def defaultEntity : GEntity :=
  { inuse := false, health := 0, vel0 := 0, vel1 := 0, vel2 := 0, number := 0 }

/-- The engine state `commands.c` reads and writes: `sv_maxclients->integer`,
the `g_entities` table and the client display names `svs->clients[i].name`. -/
structure ServerState where
  maxclients : Int
  entities : List GEntity
  clientNames : List String
  deriving Repr, DecidableEq

/-- Kinds of `G_AddEvent` emissions occurring in `commands.c`. -/
inductive EventKind where
  | EV_PAIN
  | EV_DEATH1
  | EV_GIB_PLAYER
  deriving Repr, DecidableEq

/-- Observable side effects of one command invocation: `Com_Printf` output,
`DebugPrint` output, `SV_SendServerCommand(NULL, ...)` broadcasts, and
`G_AddEvent` emissions as (entity index, kind, parameter). -/
structure Effects where
  consolePrints : List String
  debugPrints : List String
  serverCommands : List String
  events : List (Nat × EventKind × Int)
  deriving Repr, DecidableEq

/-- `Com_Printf("Usage: %s <client_id> [damage]\n", Cmd_Argv(0))`. -/
def usageSlapMsg (cmd : String) : String :=
  "Usage: " ++ cmd ++ " <client_id> [damage]\n"

/-- `Com_Printf("Usage: %s <client_id>\n", Cmd_Argv(0))`. -/
def usageSlayMsg (cmd : String) : String :=
  "Usage: " ++ cmd ++ " <client_id>\n"

/-- `Com_Printf("client_id must be a number between 0 and %d\n.", ...)`. -/
def rangeMsg (m : Int) : String :=
  "client_id must be a number between 0 and " ++ toString m ++ "\n."

/-- `Com_Printf("The player is currently not active.\n")`. -/
def notActiveMsg : String := "The player is currently not active.\n"

/-- `Com_Printf("Slapping...\n")`. -/
def slappingMsg : String := "Slapping...\n"

/-- `Com_Printf("Slaying player...\n")`. -/
def slayingMsg : String := "Slaying player...\n"

/-- The broadcast `Slap` sends, with and without a damage amount. -/
def slapBroadcast (name : String) (dmg : Int) : String :=
  if dmg ≠ 0 then
    "print \"" ++ name ++ "^7 was slapped for " ++ toString dmg ++ " damage!\n\"\n"
  else
    "print \"" ++ name ++ "^7 was slapped!\n\"\n"

/-- The broadcast `Slay` sends. -/
def slayBroadcast (name : String) : String :=
  "print \"" ++ name ++ "^7 was slain!\n\"\n"

/-- The fixed overkill health `Slay` assigns: `g_entities[i].health = -40`. -/
def overkillHealth : Int := -40

/-- `void Slap(void)` of `commands.c`, with the command line passed as the
argv list (`Cmd_Argv(k) = argv.getD k ""`, `Cmd_Argc() = argv.length`) and
the two random horizontal impulses as parameters `r0`, `r1`. -/
def Slap (argv : List String) (r0 r1 : Int) (st : ServerState) :
    ServerState × Effects :=
  let argc := argv.length
  if argc < 2 then
    (st, ⟨[usageSlapMsg (argv.getD 0 "")], [], [], []⟩)
  else
    let i := atoi (argv.getD 1 "")
    if i < 0 ∨ i > st.maxclients then
      (st, ⟨[rangeMsg st.maxclients], [], [], []⟩)
    else
      let dmg := if argc > 2 then atoi (argv.getD 2 "") else 0
      let idx := i.toNat
      let e := st.entities.getD idx defaultEntity
      if e.inuse = true ∧ e.health > 0 then
        let name := st.clientNames.getD idx ""
        let e2 : GEntity :=
          { e with
            vel0 := e.vel0 + r0 * 200
            vel1 := e.vel1 + r1 * 200
            vel2 := e.vel2 + 300
            health := e.health - dmg }
        let ev : Nat × EventKind × Int :=
          if e2.health > 0 then (idx, EventKind.EV_PAIN, 99)
          else (idx, EventKind.EV_DEATH1, (e2.number : Int))
        (⟨st.maxclients, st.entities.set idx e2, st.clientNames⟩,
         ⟨[slappingMsg], [], [slapBroadcast name dmg], [ev]⟩)
      else
        (st, ⟨[notActiveMsg], [], [], []⟩)

/-- `void Slay(void)` of `commands.c`, with the command line as argv list. -/
def Slay (argv : List String) (st : ServerState) : ServerState × Effects :=
  let argc := argv.length
  if argc < 2 then
    (st, ⟨[usageSlayMsg (argv.getD 0 "")], [], [], []⟩)
  else
    let i := atoi (argv.getD 1 "")
    if i < 0 ∨ i > st.maxclients then
      (st, ⟨[rangeMsg st.maxclients], [], [], []⟩)
    else
      let idx := i.toNat
      let e := st.entities.getD idx defaultEntity
      if e.inuse = true ∧ e.health > 0 then
        let name := st.clientNames.getD idx ""
        (⟨st.maxclients, st.entities.set idx { e with health := overkillHealth }, st.clientNames⟩,
         ⟨[slayingMsg], ["Slaying " ++ name ++ "!\n"],
          [slayBroadcast name],
          [(idx, EventKind.EV_GIB_PLAYER, (e.number : Int))]⟩)
      else
        (st, ⟨[notActiveMsg], [], [], []⟩)

/-- Health of the entity at slot `i`. -/
def healthAt (st : ServerState) (i : Nat) : Int :=
  (st.entities.getD i defaultEntity).health

/-- Repeated invocation of `Slap` with the same argv, one random-impulse pair
per invocation, keeping only the state (for the cosmetic-slap claim). -/
def iterSlap (argv : List String) (rs : List (Int × Int)) (st : ServerState) :
    ServerState :=
  rs.foldl (fun s r => (Slap argv r.1 r.2 s).1) st

/-- A Python object as far as `PyCommand` inspects one: the `Py_False`
singleton or anything else. -/
inductive PyObj where
  | pyFalse
  | pyOther
  deriving Repr, DecidableEq

/-- Events of one `PyCommand` dispatch, in order: `PyGILState_Ensure`, the
`PyObject_CallFunction` on the handler, a `Com_Printf` diagnostic, the
`Py_XDECREF` of a non-NULL result, `PyGILState_Release`. -/
inductive GilEvent where
  | gilEnsure
  | callHandler (arg : String)
  | printDiag (msg : String)
  | decref
  | gilRelease
  deriving Repr, DecidableEq

/-- `Com_Printf("The command failed to be executed. pyminqlx found no handler.\n")`. -/
def cmdFailedMsg : String :=
  "The command failed to be executed. pyminqlx found no handler.\n"

/-- `void PyCommand(void)` of `commands.c` as the trace of its GIL, handler
and print actions. `handler` is `custom_command_handler` (`none` when
unregistered); a registered handler maps the argument string to `none` when
the call raises (a NULL result, on which `Py_XDECREF` is a no-op) or to the
returned object. -/
def PyCommand (handler : Option (String → Option PyObj)) (args : String) :
    List GilEvent :=
  match handler with
  | Option.none => []
  | Option.some h =>
      let result := h args
      let diag :=
        if result = Option.some PyObj.pyFalse then [GilEvent.printDiag cmdFailedMsg]
        else []
      let dec :=
        match result with
        | Option.some _ => [GilEvent.decref]
        | Option.none => []
      GilEvent.gilEnsure :: GilEvent.callHandler args ::
        (diag ++ dec ++ [GilEvent.gilRelease])

/-- The Interpreter Session singleton: whether the embedded runtime is
initialized. -/
structure PyState where
  pyInitialized : Bool
  deriving Repr, DecidableEq

/-- Modelled from the spec: `PyMinqlx_IsInitialized` is declared in
`pyminqlx.h`, outside this unit; it reports whether the Interpreter Session
is live. -/
def PyMinqlx_IsInitialized (s : PyState) : Bool := s.pyInitialized

/-- Modelled from the spec: `PyMinqlx_Initialize` lives outside this unit.
"Initialize: transitions Uninitialized → Initialized. Fails (reported, not
fatal) if already initialized." The Bool reports success. -/
def PyMinqlx_Initialize (s : PyState) : PyState × Bool :=
  if s.pyInitialized then (s, false) else (⟨true⟩, true)

/-- Modelled from the spec: `PyMinqlx_Finalize` lives outside this unit.
"Finalize: transitions Initialized → Uninitialized, releasing all
interpreter-held resources." -/
def PyMinqlx_Finalize (_s : PyState) : PyState := ⟨false⟩

/-- Steps `RestartPython` takes, in order: the `Com_Printf`, the finalize,
the initialize, and the `NewGameDispatcher` call with its parameter. -/
inductive RestartStep where
  | printMsg (msg : String)
  | finalizeStep
  | initStep
  | newGame (param : Int)
  deriving Repr, DecidableEq

/-- `Com_Printf("Restarting Python...\n")`. -/
def restartingMsg : String := "Restarting Python...\n"

/-- `void RestartPython(void)` of `commands.c`: print, finalize when
initialized, initialize, then synthetically dispatch the new-game
notification with sentinel parameter 0 (`NewGameDispatcher(0)`, declared
outside this unit and recorded here as a trace step). -/
def RestartPython (s : PyState) : PyState × List RestartStep :=
  let pre :=
    if PyMinqlx_IsInitialized s then
      (PyMinqlx_Finalize s, [RestartStep.finalizeStep])
    else (s, ([] : List RestartStep))
  let post := PyMinqlx_Initialize pre.1
  (post.1,
   RestartStep.printMsg restartingMsg :: pre.2 ++
     [RestartStep.initStep, RestartStep.newGame 0])

/-- Recognizes the synthetic new-game notification among restart steps. -/
def isNewGameStep : RestartStep → Bool
  | RestartStep.newGame _ => true
  | _ => false

/-! ## Helper lemmas -/

theorem getD_default_of_le {α : Type} :
    ∀ (l : List α) (i : Nat) (d : α), l.length ≤ i → l.getD i d = d
  | [], _, _, _ => rfl
  | _ :: _, 0, _, h => absurd h (by simp)
  | _ :: xs, i + 1, d, h =>
      getD_default_of_le xs i d (Nat.le_of_succ_le_succ (by simpa using h))

theorem getD_set_self {α : Type} :
    ∀ (l : List α) (i : Nat) (a d : α), i < l.length → (l.set i a).getD i d = a
  | [], _, _, _, h => absurd h (by simp)
  | _ :: _, 0, _, _, _ => rfl
  | _ :: xs, i + 1, a, d, h =>
      getD_set_self xs i a d (Nat.lt_of_succ_lt_succ (by simpa using h))

/-- An in-use entity read via `getD` really sits inside the table. -/
theorem lt_length_of_inuse (l : List GEntity) (i : Nat) (e : GEntity)
    (he : l.getD i defaultEntity = e) (hin : e.inuse = true) :
    i < l.length := by
  by_contra hnot
  push_neg at hnot
  rw [getD_default_of_le l i defaultEntity hnot] at he
  rw [← he] at hin
  exact Bool.false_ne_true hin

/-- Unfolding of `Slap` with a damage argument on an in-range, in-use,
positive-health target. -/
theorem slap3_active (cmd sid sdmg : String) (r0 r1 : Int) (st : ServerState)
    (i : Nat) (e : GEntity)
    (hsid : atoi sid = (i : Int))
    (hle : (i : Int) ≤ st.maxclients)
    (he : st.entities.getD i defaultEntity = e)
    (hin : e.inuse = true)
    (hpos : e.health > 0) :
    Slap [cmd, sid, sdmg] r0 r1 st
      = (⟨st.maxclients,
          st.entities.set i
            { e with
              vel0 := e.vel0 + r0 * 200
              vel1 := e.vel1 + r1 * 200
              vel2 := e.vel2 + 300
              health := e.health - atoi sdmg },
          st.clientNames⟩,
         ⟨[slappingMsg], [],
          [slapBroadcast (st.clientNames.getD i "") (atoi sdmg)],
          [if e.health - atoi sdmg > 0 then (i, EventKind.EV_PAIN, (99 : Int))
           else (i, EventKind.EV_DEATH1, (e.number : Int))]⟩) := by
  have hge : ¬ ((i : Int) < 0) := not_lt.mpr (Int.natCast_nonneg i)
  have hgt : ¬ ((i : Int) > st.maxclients) := not_lt.mpr hle
  simp only [Slap, List.length_cons, List.length_nil, List.getD_cons_succ,
    List.getD_cons_zero, hsid, hge, hgt, or_self, if_false, Int.toNat_natCast,
    he, hin, hpos, and_self, if_true]
  norm_num

/-- Unfolding of `Slap` without a damage argument (damage defaults to 0) on
an in-range, in-use, positive-health target: health is unchanged and the
event is always a pain event. -/
theorem slap2_active (cmd sid : String) (r0 r1 : Int) (st : ServerState)
    (i : Nat) (e : GEntity)
    (hsid : atoi sid = (i : Int))
    (hle : (i : Int) ≤ st.maxclients)
    (he : st.entities.getD i defaultEntity = e)
    (hin : e.inuse = true)
    (hpos : e.health > 0) :
    Slap [cmd, sid] r0 r1 st
      = (⟨st.maxclients,
          st.entities.set i
            { e with
              vel0 := e.vel0 + r0 * 200
              vel1 := e.vel1 + r1 * 200
              vel2 := e.vel2 + 300 },
          st.clientNames⟩,
         ⟨[slappingMsg], [],
          [slapBroadcast (st.clientNames.getD i "") 0],
          [(i, EventKind.EV_PAIN, (99 : Int))]⟩) := by
  have hge : ¬ ((i : Int) < 0) := not_lt.mpr (Int.natCast_nonneg i)
  have hgt : ¬ ((i : Int) > st.maxclients) := not_lt.mpr hle
  simp only [Slap, List.length_cons, List.length_nil, List.getD_cons_succ,
    List.getD_cons_zero, hsid, hge, hgt, or_self, if_false, Int.toNat_natCast,
    he, hin, hpos, and_self, if_true]
  norm_num [hpos]

/-- Unfolding of `Slay` on an in-range, in-use, positive-health target. -/
theorem slay_active (cmd sid : String) (st : ServerState)
    (i : Nat) (e : GEntity)
    (hsid : atoi sid = (i : Int))
    (hle : (i : Int) ≤ st.maxclients)
    (he : st.entities.getD i defaultEntity = e)
    (hin : e.inuse = true)
    (hpos : e.health > 0) :
    Slay [cmd, sid] st
      = (⟨st.maxclients,
          st.entities.set i { e with health := overkillHealth },
          st.clientNames⟩,
         ⟨[slayingMsg],
          ["Slaying " ++ st.clientNames.getD i "" ++ "!\n"],
          [slayBroadcast (st.clientNames.getD i "")],
          [(i, EventKind.EV_GIB_PLAYER, (e.number : Int))]⟩) := by
  have hge : ¬ ((i : Int) < 0) := not_lt.mpr (Int.natCast_nonneg i)
  have hgt : ¬ ((i : Int) > st.maxclients) := not_lt.mpr hle
  simp only [Slay, List.length_cons, List.length_nil, List.getD_cons_succ,
    List.getD_cons_zero, hsid, hge, hgt, or_self, if_false, Int.toNat_natCast,
    he, hin, hpos, and_self, if_true]
  norm_num

/-! ## Scripting-bridge theorems -/

/-- Claim C1: `RestartPython` always ends with the session initialized and the
trace contains exactly one synthetic new-game step, with sentinel parameter 0;
when the session was initialized, a finalize step precedes the initialize
step. -/
theorem restartPython_correct (s : PyState) :
    (RestartPython s).1.pyInitialized = true
    ∧ (RestartPython s).2.countP (fun e => isNewGameStep e) = 1
    ∧ RestartStep.newGame 0 ∈ (RestartPython s).2
    ∧ (s.pyInitialized = true →
        (RestartPython s).2
          = [RestartStep.printMsg restartingMsg, RestartStep.finalizeStep,
             RestartStep.initStep, RestartStep.newGame 0])
    ∧ (s.pyInitialized = false →
        (RestartPython s).2
          = [RestartStep.printMsg restartingMsg, RestartStep.initStep,
             RestartStep.newGame 0]) := by
  rcases s with ⟨b⟩
  cases b <;> decide

/-- Claim C2: dispatching a scripted command with a registered handler
acquires the GIL first, invokes the handler with the argument string, releases
the GIL exactly once as the last step on every path — including a raising
handler (`none` result) — and drops the temporary result reference strictly
before the release whenever a result object exists. -/
theorem pyCommand_lock_discipline (h : String → Option PyObj) (args : String) :
    ∃ mid,
      PyCommand (Option.some h) args
        = GilEvent.gilEnsure :: GilEvent.callHandler args ::
            (mid ++ [GilEvent.gilRelease])
      ∧ GilEvent.gilRelease ∉ mid
      ∧ GilEvent.gilEnsure ∉ mid
      ∧ (PyCommand (Option.some h) args).count GilEvent.gilRelease = 1
      ∧ ((h args).isSome = true → GilEvent.decref ∈ mid) := by
  rcases hr : h args with _ | obj
  · exact ⟨[], by simp [PyCommand, hr, List.count_cons]⟩
  · rcases obj with _ | _
    · exact ⟨[GilEvent.printDiag cmdFailedMsg, GilEvent.decref],
        by simp [PyCommand, hr, List.count_cons]⟩
    · exact ⟨[GilEvent.decref], by simp [PyCommand, hr, List.count_cons]⟩

/-- Claim C3: with no registered handler the dispatch is a silent no-op (empty
trace, so no handler call and no print); with a registered handler, a
diagnostic is printed exactly when the result is the `Py_False` singleton, and
it is the fixed failure message. -/
theorem pyCommand_diagnostics (h : String → Option PyObj) (args msg : String) :
    PyCommand Option.none args = []
    ∧ (GilEvent.printDiag msg ∈ PyCommand (Option.some h) args
        ↔ h args = Option.some PyObj.pyFalse ∧ msg = cmdFailedMsg) := by
  refine ⟨rfl, ?_⟩
  rcases hr : h args with _ | obj
  · simp [PyCommand, hr]
  · rcases obj with _ | _ <;> simp [PyCommand, hr]

/-! ## Concrete states for witnesses and counterexamples -/

/-- A three-slot server with `max_clients = 2`: slot 0 active with health 50,
slot 1 inactive, slot 2 active with health 50. -/
def demoState : ServerState :=
  { maxclients := 2
  , entities :=
      [⟨true, 50, 0, 0, 0, 0⟩, ⟨false, 10, 0, 0, 0, 1⟩, ⟨true, 50, 0, 0, 0, 2⟩]
  , clientNames := ["alpha", "beta", "gamma"] }

/-- A one-slot server whose only entity is active with health 1. -/
def demoState1 : ServerState :=
  { maxclients := 2, entities := [⟨true, 1, 0, 0, 0, 0⟩], clientNames := ["alpha"] }

/-- A one-slot server whose only entity is active with health 999. -/
def demoState999 : ServerState :=
  { maxclients := 2, entities := [⟨true, 999, 0, 0, 0, 0⟩], clientNames := ["alpha"] }

/-- A one-slot server whose only entity is in use but already dead
(health 0). -/
def demoDead : ServerState :=
  { maxclients := 2, entities := [⟨true, 0, 0, 0, 0, 0⟩], clientNames := ["alpha"] }

/-! ## Action-command theorems -/

/-- Claim C4: slapping an in-range, in-use, positive-health target decrements
its health by the damage argument (0 when the argument is omitted) and emits a
pain event when the resulting health is positive, otherwise a death event. -/
theorem slap_damage_events (cmd sid sdmg : String) (r0 r1 : Int)
    (st : ServerState) (i : Nat) (e : GEntity)
    (hsid : atoi sid = (i : Int)) (hle : (i : Int) ≤ st.maxclients)
    (he : st.entities.getD i defaultEntity = e)
    (hin : e.inuse = true) (hpos : e.health > 0) :
    healthAt (Slap [cmd, sid, sdmg] r0 r1 st).1 i = e.health - atoi sdmg
    ∧ healthAt (Slap [cmd, sid] r0 r1 st).1 i = e.health
    ∧ (e.health - atoi sdmg > 0 →
        (Slap [cmd, sid, sdmg] r0 r1 st).2.events
          = [(i, EventKind.EV_PAIN, 99)])
    ∧ (e.health - atoi sdmg ≤ 0 →
        (Slap [cmd, sid, sdmg] r0 r1 st).2.events
          = [(i, EventKind.EV_DEATH1, (e.number : Int))]) := by
  have hlen : i < st.entities.length := lt_length_of_inuse _ _ _ he hin
  have h3 := slap3_active cmd sid sdmg r0 r1 st i e hsid hle he hin hpos
  have h2 := slap2_active cmd sid r0 r1 st i e hsid hle he hin hpos
  refine ⟨?_, ?_, ?_, ?_⟩
  · rw [h3]; simp only [healthAt]; rw [getD_set_self _ _ _ _ hlen]
  · rw [h2]; simp only [healthAt]; rw [getD_set_self _ _ _ _ hlen]
  · intro hgt
    rw [h3]
    simp only [if_pos hgt]
  · intro hle2
    rw [h3]
    simp only [if_neg (not_lt.mpr hle2)]

/-- Witness for C4 at the concrete inputs of the spec example: from health 50,
damage 30 yields health 20 and a pain event, damage 60 yields health -10 and a
death event. -/
theorem slap_damage_events_witness :
    healthAt (Slap ["slap", "0", "30"] 1 1 demoState).1 0 = 20
    ∧ (Slap ["slap", "0", "30"] 1 1 demoState).2.events
        = [(0, EventKind.EV_PAIN, 99)]
    ∧ healthAt (Slap ["slap", "0", "60"] 1 1 demoState).1 0 = -10
    ∧ (Slap ["slap", "0", "60"] 1 1 demoState).2.events
        = [(0, EventKind.EV_DEATH1, 0)] := by
  obtain ⟨a1, -, a3, -⟩ := slap_damage_events "slap" "0" "30" 1 1 demoState 0
    ⟨true, 50, 0, 0, 0, 0⟩ (by decide) (by decide) rfl rfl (by decide)
  obtain ⟨b1, -, -, b4⟩ := slap_damage_events "slap" "0" "60" 1 1 demoState 0
    ⟨true, 50, 0, 0, 0, 0⟩ (by decide) (by decide) rfl rfl (by decide)
  refine ⟨?_, a3 (by decide), ?_, b4 (by decide)⟩
  · rw [a1]; decide
  · rw [b1]; decide

/-- Claim C5: slaying an in-range, in-use, positive-health target sets its
health to the fixed overkill constant regardless of the prior value, emits a
gib death event, and broadcasts a message naming the target. -/
theorem slay_overkill (cmd sid : String) (st : ServerState) (i : Nat)
    (e : GEntity)
    (hsid : atoi sid = (i : Int)) (hle : (i : Int) ≤ st.maxclients)
    (he : st.entities.getD i defaultEntity = e)
    (hin : e.inuse = true) (hpos : e.health > 0) :
    healthAt (Slay [cmd, sid] st).1 i = overkillHealth
    ∧ (Slay [cmd, sid] st).2.events
        = [(i, EventKind.EV_GIB_PLAYER, (e.number : Int))]
    ∧ (Slay [cmd, sid] st).2.serverCommands
        = [slayBroadcast (st.clientNames.getD i "")] := by
  have hlen : i < st.entities.length := lt_length_of_inuse _ _ _ he hin
  have h := slay_active cmd sid st i e hsid hle he hin hpos
  refine ⟨?_, ?_, ?_⟩
  · rw [h]; simp only [healthAt]; rw [getD_set_self _ _ _ _ hlen]
  · rw [h]
  · rw [h]

/-- Witness for C5: prior health 1 and prior health 999 both end at the same
overkill constant. -/
theorem slay_overkill_witness :
    healthAt (Slay ["slay", "0"] demoState1).1 0 = overkillHealth
    ∧ healthAt (Slay ["slay", "0"] demoState999).1 0 = overkillHealth :=
  ⟨(slay_overkill "slay" "0" demoState1 0 ⟨true, 1, 0, 0, 0, 0⟩
      (by decide) (by decide) rfl rfl (by decide)).1,
   (slay_overkill "slay" "0" demoState999 0 ⟨true, 999, 0, 0, 0, 0⟩
      (by decide) (by decide) rfl rfl (by decide)).1⟩

/-- Claim C6: with an out-of-range index or a not-in-use target, Slap and Slay
leave the whole server state unchanged, broadcast nothing, emit no event, and
print exactly one local diagnostic. -/
theorem slap_slay_invalid_noop (argv : List String) (r0 r1 : Int)
    (st : ServerState)
    (hargc : 2 ≤ argv.length)
    (hbad : (atoi (argv.getD 1 "") < 0 ∨ atoi (argv.getD 1 "") > st.maxclients)
        ∨ (st.entities.getD (atoi (argv.getD 1 "")).toNat defaultEntity).inuse
            = false) :
    (Slap argv r0 r1 st).1 = st
    ∧ (Slap argv r0 r1 st).2.serverCommands = []
    ∧ (Slap argv r0 r1 st).2.events = []
    ∧ (Slap argv r0 r1 st).2.debugPrints = []
    ∧ (∃ m, (Slap argv r0 r1 st).2.consolePrints = [m])
    ∧ (Slay argv st).1 = st
    ∧ (Slay argv st).2.serverCommands = []
    ∧ (Slay argv st).2.events = []
    ∧ (Slay argv st).2.debugPrints = []
    ∧ (∃ m, (Slay argv st).2.consolePrints = [m]) := by
  have hn2 : ¬ (argv.length < 2) := Nat.not_lt.mpr hargc
  obtain ⟨m1, hm1⟩ : ∃ m, Slap argv r0 r1 st = (st, ⟨[m], [], [], []⟩) := by
    simp only [Slap, hn2, if_false]
    by_cases hr : atoi (argv.getD 1 "") < 0
        ∨ atoi (argv.getD 1 "") > st.maxclients
    · exact ⟨rangeMsg st.maxclients, by rw [if_pos hr]⟩
    · have hinuse := hbad.resolve_left hr
      refine ⟨notActiveMsg, ?_⟩
      rw [if_neg hr, if_neg (by rw [hinuse]; simp)]
  obtain ⟨m2, hm2⟩ : ∃ m, Slay argv st = (st, ⟨[m], [], [], []⟩) := by
    simp only [Slay, hn2, if_false]
    by_cases hr : atoi (argv.getD 1 "") < 0
        ∨ atoi (argv.getD 1 "") > st.maxclients
    · exact ⟨rangeMsg st.maxclients, by rw [if_pos hr]⟩
    · have hinuse := hbad.resolve_left hr
      refine ⟨notActiveMsg, ?_⟩
      rw [if_neg hr, if_neg (by rw [hinuse]; simp)]
  rw [hm1, hm2]
  exact ⟨rfl, rfl, rfl, rfl, ⟨m1, rfl⟩, rfl, rfl, rfl, rfl, ⟨m2, rfl⟩⟩

/-- Witness for C6: index 5 with `max_clients = 2` (out of range). -/
theorem slap_slay_invalid_noop_witness :
    (Slap ["slap", "5"] 1 1 demoState).1 = demoState
    ∧ (Slap ["slap", "5"] 1 1 demoState).2.serverCommands = []
    ∧ (Slap ["slap", "5"] 1 1 demoState).2.events = []
    ∧ (Slap ["slap", "5"] 1 1 demoState).2.debugPrints = []
    ∧ (∃ m, (Slap ["slap", "5"] 1 1 demoState).2.consolePrints = [m])
    ∧ (Slay ["slap", "5"] demoState).1 = demoState
    ∧ (Slay ["slap", "5"] demoState).2.serverCommands = []
    ∧ (Slay ["slap", "5"] demoState).2.events = []
    ∧ (Slay ["slap", "5"] demoState).2.debugPrints = []
    ∧ (∃ m, (Slay ["slap", "5"] demoState).2.consolePrints = [m]) :=
  slap_slay_invalid_noop ["slap", "5"] 1 1 demoState (by decide) (by decide)

/-- Counterexample to C7 as stated: with `max_clients = 2`, index 2 (equal to
`max_clients`) is not rejected — the range check passes and the in-use target
at slot 2 is mutated down to the overkill constant. -/
theorem slay_at_maxclients_mutates :
    healthAt demoState 2 = 50
    ∧ healthAt (Slay ["slay", "2"] demoState).1 2 = overkillHealth
    ∧ (Slay ["slay", "2"] demoState).2.consolePrints = [slayingMsg]
    ∧ (Slay ["slay", "2"] demoState).2.events ≠ [] := by decide

/-- Claim C7 amended: the range check accepts the closed interval
[0, max_clients] — any index `i` with `0 ≤ i ≤ max_clients`, including
`i = max_clients`, passes it, and with an in-use positive-health target the
commands proceed (Slay sets the overkill health, both print their action
message rather than a range diagnostic). -/
theorem range_check_closed_interval (cmd sid : String) (r0 r1 : Int)
    (st : ServerState) (i : Nat) (e : GEntity)
    (hsid : atoi sid = (i : Int)) (hle : (i : Int) ≤ st.maxclients)
    (he : st.entities.getD i defaultEntity = e)
    (hin : e.inuse = true) (hpos : e.health > 0) :
    healthAt (Slay [cmd, sid] st).1 i = overkillHealth
    ∧ (Slay [cmd, sid] st).2.consolePrints = [slayingMsg]
    ∧ (Slap [cmd, sid] r0 r1 st).2.consolePrints = [slappingMsg] := by
  have hlen : i < st.entities.length := lt_length_of_inuse _ _ _ he hin
  have hy := slay_active cmd sid st i e hsid hle he hin hpos
  have hp := slap2_active cmd sid r0 r1 st i e hsid hle he hin hpos
  refine ⟨?_, ?_, ?_⟩
  · rw [hy]; simp only [healthAt]; rw [getD_set_self _ _ _ _ hlen]
  · rw [hy]
  · rw [hp]

/-- Witness for the amended C7, at an index exactly equal to
`max_clients = 2`. -/
theorem range_check_closed_interval_witness :
    healthAt (Slay ["slay", "2"] demoState).1 2 = overkillHealth
    ∧ (Slay ["slay", "2"] demoState).2.consolePrints = [slayingMsg]
    ∧ (Slap ["slay", "2"] 1 1 demoState).2.consolePrints = [slappingMsg] :=
  range_check_closed_interval "slay" "2" 1 1 demoState 2 ⟨true, 50, 0, 0, 0, 2⟩
    (by decide) (by decide) rfl rfl (by decide)

/-- Counterexample to C8 as stated: a non-numeric argument ("abc") does not
print a usage diagnostic and does not abort — atoi parses it as 0, and the
in-use client 0 is slapped/slain (the state changes). -/
theorem malformed_args_proceed :
    (Slap ["slap", "abc"] 1 1 demoState).2.consolePrints = [slappingMsg]
    ∧ (Slap ["slap", "abc"] 1 1 demoState).1 ≠ demoState
    ∧ (Slay ["slay", "abc"] demoState).2.consolePrints = [slayingMsg]
    ∧ (Slay ["slay", "abc"] demoState).1 ≠ demoState := by decide

/-- Claim C8 amended: missing arguments print a usage diagnostic to the local
console only and abort with no state change, no broadcast and no event;
malformed non-numeric arguments are not detected — atoi parses them (a
digitless string yields 0) and the command proceeds with that index. -/
theorem missing_args_usage_abort (st : ServerState) (r0 r1 : Int)
    (cmd : String) :
    Slap [cmd] r0 r1 st = (st, ⟨[usageSlapMsg cmd], [], [], []⟩)
    ∧ Slay [cmd] st = (st, ⟨[usageSlayMsg cmd], [], [], []⟩)
    ∧ Slap [] r0 r1 st = (st, ⟨[usageSlapMsg ""], [], [], []⟩)
    ∧ Slay [] st = (st, ⟨[usageSlayMsg ""], [], [], []⟩)
    ∧ atoi "abc" = 0 ∧ atoi "" = 0 := by
  refine ⟨?_, ?_, ?_, ?_, by decide, by decide⟩ <;> simp [Slap, Slay]

/-- Claim C9: any number of cosmetic slaps (damage argument omitted, so 0)
leaves the health of an in-use positive-health target unchanged. -/
theorem slap_cosmetic_repeat_health (cmd sid : String) (rs : List (Int × Int))
    (st : ServerState) (i : Nat) (e : GEntity)
    (hsid : atoi sid = (i : Int)) (hle : (i : Int) ≤ st.maxclients)
    (he : st.entities.getD i defaultEntity = e)
    (hin : e.inuse = true) (hpos : e.health > 0) :
    healthAt (iterSlap [cmd, sid] rs st) i = e.health := by
  induction rs generalizing st e with
  | nil =>
      simp only [iterSlap, List.foldl_nil, healthAt, he]
  | cons r rs ih =>
      have hlen : i < st.entities.length := lt_length_of_inuse _ _ _ he hin
      have h2 := slap2_active cmd sid r.1 r.2 st i e hsid hle he hin hpos
      have hstep : iterSlap [cmd, sid] (r :: rs) st
          = iterSlap [cmd, sid] rs (Slap [cmd, sid] r.1 r.2 st).1 := rfl
      rw [hstep, h2]
      exact ih _
        { e with
          vel0 := e.vel0 + r.1 * 200
          vel1 := e.vel1 + r.2 * 200
          vel2 := e.vel2 + 300 }
        hle (getD_set_self _ _ _ _ hlen) hin hpos

/-- Witness for C9: three cosmetic slaps on a health-50 target leave its
health at 50. -/
theorem slap_cosmetic_repeat_health_witness :
    healthAt (iterSlap ["slap", "0"] [(1, 1), (-3, 2), (0, 0)] demoState) 0
      = 50 :=
  slap_cosmetic_repeat_health "slap" "0" [(1, 1), (-3, 2), (0, 0)] demoState 0
    ⟨true, 50, 0, 0, 0, 0⟩ (by decide) (by decide) rfl rfl (by decide)

/-- Claim C10: Slap and Slay on an in-use entity whose health is already
non-positive do nothing — no mutation, no broadcast, no event — and print the
same single "player not active" diagnostic used for not-in-use entities. -/
theorem slap_slay_dead_noop (cmd sid : String) (rest : List String)
    (r0 r1 : Int) (st : ServerState) (i : Nat) (e : GEntity)
    (hsid : atoi sid = (i : Int)) (hle : (i : Int) ≤ st.maxclients)
    (he : st.entities.getD i defaultEntity = e)
    (_hin : e.inuse = true) (hdead : e.health ≤ 0) :
    Slap (cmd :: sid :: rest) r0 r1 st = (st, ⟨[notActiveMsg], [], [], []⟩)
    ∧ Slay (cmd :: sid :: rest) st = (st, ⟨[notActiveMsg], [], [], []⟩) := by
  have hge : ¬ ((i : Int) < 0) := not_lt.mpr (Int.natCast_nonneg i)
  have hgt : ¬ ((i : Int) > st.maxclients) := not_lt.mpr hle
  have hlen2 : ¬ ((cmd :: sid :: rest).length < 2) := by
    simp only [List.length_cons]
    omega
  have hcond : ¬ (e.inuse = true ∧ e.health > 0) := by
    rintro ⟨-, hp⟩
    exact absurd hp (not_lt.mpr hdead)
  constructor
  · simp only [Slap, hlen2, if_false, List.getD_cons_succ, List.getD_cons_zero,
      hsid, hge, hgt, or_self, Int.toNat_natCast, he, hcond]
  · simp only [Slay, hlen2, if_false, List.getD_cons_succ, List.getD_cons_zero,
      hsid, hge, hgt, or_self, Int.toNat_natCast, he, hcond]

/-- Witness for C10: an in-use entity with health 0 is reported as not
active and untouched by both commands. -/
theorem slap_slay_dead_noop_witness :
    Slap ["slap", "0"] 1 1 demoDead = (demoDead, ⟨[notActiveMsg], [], [], []⟩)
    ∧ Slay ["slap", "0"] demoDead = (demoDead, ⟨[notActiveMsg], [], [], []⟩) :=
  slap_slay_dead_noop "slap" "0" [] 1 1 demoDead 0 ⟨true, 0, 0, 0, 0, 0⟩
    (by decide) (by decide) rfl rfl (by decide)

end MinqlxCommands
